import Mathlib

/-!
Shallow embedding of the PRIMER_CORTE FreeRTOS sketch
(`Primercorte_freeRTOS.ino` and the documented `main.cpp` variant).

Modelling conventions:
* C `float` fields are modelled as `ℚ` (exact for every value appearing in
  the claims; the sentinel -1 and the comparison thresholds are integers).
* A queue receive with timeout is modelled as an `Option` input to the task
  step function: `none` is a timed-out receive, `some d` a delivered message.
* `isnan` failures of the DHT driver are modelled by giving the driver
  reading type `Option ℚ`, `none` standing for a NaN reading.
* The binary semaphore `ledSemaphore` is modelled as a `Bool` (false = idle,
  true = raised), with `xSemaphoreGive`/`xSemaphoreTake` semantics of a
  FreeRTOS binary semaphore.
* `snprintf` formatting is reimplemented character-for-character for the
  conversions the sketch uses (`%02d`, `%04d`, `%d`, `%.2f`); `%.2f` rounds
  to the nearest hundredth, which agrees with printf on every value that is
  exactly representable to two decimals, as all values in the claims are.
-/

namespace PrimerCorte

/-- `struct SensorData` of the sketch: one message on `sensorQueue`.
The sketch uses -1 as the absence sentinel for each field. -/
structure SensorData where
  temperature : ℚ
  humidity : ℚ
  light : Int
deriving DecidableEq, Repr

/-- `struct RTCData` of the sketch: one message on `rtcQueue`. -/
structure RTCData where
  hour : Int
  minute : Int
  second : Int
  day : Int
  month : Int
  year : Int
deriving DecidableEq, Repr

/-- Light threshold of the alarm predicate in the `.ino` variant (line 94). -/
def umbralLuzIno : Int := 5000

/-- Light threshold of the alarm predicate in the `main.cpp` variant (line 174). -/
def umbralLuzMain : Int := 500

/-- One cycle of `tareaDHT`: the driver readings are `none` on NaN.
Returns the message submitted to `sensorQueue` (if any) and whether the
error line was printed. -/
def tareaDHTcycle (temp hum : Option ℚ) : Option SensorData × Bool :=
  match temp, hum with
  | some t, some h => (some ⟨t, h, -1⟩, false)
  | _, _ => (none, true)

/-- One cycle of `tareaLDR`: the message built from the analog reading. -/
def tareaLDRcycle (lightValue : Int) : SensorData :=
  ⟨-1, -1, lightValue⟩

/-- The alarm condition of `tareaMostrar`:
`(temperature > 24 && humidity > 70) || light > umbral`. -/
def alarmCondition (umbral : Int) (d : SensorData) : Bool :=
  (decide ((24 : ℚ) < d.temperature) && decide ((70 : ℚ) < d.humidity))
    || decide (umbral < d.light)

/-- The sensor half of one `tareaMostrar` iteration: on a delivered
`SensorData` the alarm condition is evaluated unconditionally and
`xSemaphoreGive(ledSemaphore)` runs exactly when it holds; on a timed-out
receive nothing happens. Returns whether the semaphore was given. -/
def tareaMostrarStep (umbral : Int) (recv : Option SensorData) : Bool :=
  match recv with
  | some d => alarmCondition umbral d
  | none => false

/-- One `tareaAlarma` blocking wait modelled as a non-blocking attempt on the
binary semaphore: `(acquired, new state)`. A take succeeds exactly when the
semaphore is raised and atomically returns it to idle. -/
def xSemaphoreTakeBinary (s : Bool) : Bool × Bool :=
  (s, false)

/-- `xSemaphoreGive` on the binary semaphore `ledSemaphore`: a raised
semaphore stays raised (the give is a no-op), an idle one becomes raised. -/
def xSemaphoreGiveBinary (_s : Bool) : Bool :=
  true

/-- State of the semaphore after `k` consecutive gives starting from `s`. -/
def runGives (s : Bool) : Nat → Bool
  | 0 => s
  | k + 1 => runGives (xSemaphoreGiveBinary s) k

/-- Number of successful takes (LED activations) in `m` consecutive take
attempts of `tareaAlarma` starting from semaphore state `s`, with no give
in between. -/
def tareaAlarmaTakes (s : Bool) : Nat → Nat
  | 0 => 0
  | m + 1 =>
      (if (xSemaphoreTakeBinary s).1 then 1 else 0)
        + tareaAlarmaTakes (xSemaphoreTakeBinary s).2 m

/-- Left-pad a digit string with zeros to width `w` (printf zero flag). -/
def padZeros (w : Nat) (s : String) : String :=
  if s.length < w then String.mk (List.replicate (w - s.length) '0') ++ s else s

/-- printf `%02d` on an `int`. -/
def fmtInt2 (i : Int) : String :=
  if i < 0 then "-" ++ padZeros 1 (toString i.natAbs) else padZeros 2 (toString i.toNat)

/-- printf `%04d` on an `int`. -/
def fmtInt4 (i : Int) : String :=
  if i < 0 then "-" ++ padZeros 3 (toString i.natAbs) else padZeros 4 (toString i.toNat)

/-- printf `%.2f` on a nonnegative value: round to the nearest hundredth
(`(200 * num + den) / (2 * den)` is `⌊100q + 1/2⌋` for `q ≥ 0`) and print
with exactly two decimals. -/
def fmtFixed2Nonneg (q : ℚ) : String :=
  toString ((200 * q.num.toNat + q.den) / (2 * q.den) / 100) ++ "."
    ++ padZeros 2 (toString ((200 * q.num.toNat + q.den) / (2 * q.den) % 100))

/-- printf `%.2f` on a `float` modelled as `ℚ`. -/
def fmtFixed2 (q : ℚ) : String :=
  if q < 0 then "-" ++ fmtFixed2Nonneg (-q) else fmtFixed2Nonneg q

/-- The `snprintf` of `tareaCrearTrama`:
`"%02d/%02d/%04d %02d:%02d:%02d, Temp: %.2f C, Hum: %.2f%%, Luz: %d"`. -/
def formatTrama (r : RTCData) (lastTemperature lastHumidity : ℚ) (light : Int) : String :=
  fmtInt2 r.day ++ "/" ++ fmtInt2 r.month ++ "/" ++ fmtInt4 r.year ++ " "
    ++ fmtInt2 r.hour ++ ":" ++ fmtInt2 r.minute ++ ":" ++ fmtInt2 r.second
    ++ ", Temp: " ++ fmtFixed2 lastTemperature ++ " C, Hum: " ++ fmtFixed2 lastHumidity
    ++ "%, Luz: " ++ toString light

/-- State of `tareaCrearTrama` across loop iterations: the two `static`
last-known-good values (initialised to -1) and the local `sensorData`
variable, which C++ leaves uninitialised and which survives iterations in
which the sensor receive times out. -/
structure TramaState where
  lastTemperature : ℚ
  lastHumidity : ℚ
  sensorData : SensorData
deriving DecidableEq, Repr

/-- `tareaCrearTrama` state at task start: the statics are -1 and the local
`sensorData` holds an indeterminate stack value, passed in as `junk`. -/
def initTramaState (junk : SensorData) : TramaState :=
  ⟨-1, -1, junk⟩

/-- The sensor-receive half of one `tareaCrearTrama` iteration: on a
delivered message each static is overwritten only by a non-sentinel field,
and the local `sensorData` takes the whole message; a timeout leaves all
three unchanged. -/
def updateSensor (s : TramaState) (recv : Option SensorData) : TramaState :=
  match recv with
  | some d =>
      ⟨if d.temperature ≠ -1 then d.temperature else s.lastTemperature,
       if d.humidity ≠ -1 then d.humidity else s.lastHumidity,
       d⟩
  | none => s

/-- One full `tareaCrearTrama` iteration: sensor receive, then RTC receive;
when the RTC receive succeeds a frame is built from the statics and the
light field of the local `sensorData` and submitted to `tramaQueue`. -/
def tareaCrearTramaStep (s : TramaState) (recvS : Option SensorData) (recvR : Option RTCData) :
    TramaState × Option String :=
  let s1 := updateSensor s recvS
  match recvR with
  | some r => (s1, some (formatTrama r s1.lastTemperature s1.lastHumidity s1.sensorData.light))
  | none => (s1, none)

/-- Digital level of an input pin. -/
inductive PinLevel where
  | low
  | high
deriving DecidableEq, Repr

/-- `buttonISR`: increments `contador` exactly when both buttons read LOW. -/
def buttonISRstep (contador : Int) (pin1 pin2 : PinLevel) : Int :=
  if pin1 = PinLevel.low ∧ pin2 = PinLevel.low then contador + 1 else contador

/-- `contador` after a sequence of ISR invocations, each with the pin levels
read inside the handler. -/
def runButtonEvents (contador : Int) : List (PinLevel × PinLevel) → Int
  | [] => contador
  | (p1, p2) :: rest => runButtonEvents (buttonISRstep contador p1 p2) rest

/-- The two `RTC_DATA_ATTR` counters, the only state surviving deep sleep. -/
structure PersistentState where
  contador : Int
  wakeCounter : Int
deriving DecidableEq, Repr

/-- Deep sleep plus timer wakeup: `RTC_DATA_ATTR` variables are preserved
verbatim; everything else (tasks, queues, the semaphore) is lost and
recreated by `setup`. -/
def deepSleepWake (s : PersistentState) : PersistentState :=
  s

/-- The effect of `setup` on the persisted counters: `wakeCounter++` runs
once and `contador` is not touched. -/
def setupPersistent (s : PersistentState) : PersistentState :=
  ⟨s.contador, s.wakeCounter + 1⟩

/-- One full sleep→wake→reinitialisation cycle. -/
def sleepWakeCycle (s : PersistentState) : PersistentState :=
  setupPersistent (deepSleepWake s)

/-- The "exactly one channel populated" invariant claimed for every message
on `sensorQueue`: either temperature and humidity are both present with
light absent, or light is present with both others absent (presence being
"differs from the sentinel -1"). -/
def exactlyOneChannel (d : SensorData) : Prop :=
  (d.temperature ≠ -1 ∧ d.humidity ≠ -1 ∧ d.light = -1)
    ∨ (d.temperature = -1 ∧ d.humidity = -1 ∧ d.light ≠ -1)

instance (d : SensorData) : Decidable (exactlyOneChannel d) := by
  unfold exactlyOneChannel
  infer_instance

/-- The temperature values a consumer regards as valid (non-sentinel) in a
sequence of sensor-receive outcomes, oldest first. -/
def validTemps (evs : List (Option SensorData)) : List ℚ :=
  evs.filterMap fun e =>
    match e with
    | some d => if d.temperature = -1 then none else some d.temperature
    | none => none

/-- The humidity values a consumer regards as valid (non-sentinel) in a
sequence of sensor-receive outcomes, oldest first. -/
def validHums (evs : List (Option SensorData)) : List ℚ :=
  evs.filterMap fun e =>
    match e with
    | some d => if d.humidity = -1 then none else some d.humidity
    | none => none

/-- The last element of a list, or `dflt` when the list is empty; this is
the claim's "most recently received valid value, or -1 when none". -/
def lastOr (dflt : ℚ) : List ℚ → ℚ
  | [] => dflt
  | x :: xs => lastOr x xs

theorem foldl_updateSensor_temp (evs : List (Option SensorData)) :
    ∀ s : TramaState,
      (evs.foldl updateSensor s).lastTemperature = lastOr s.lastTemperature (validTemps evs) := by
  induction evs with
  | nil => intro s; rfl
  | cons e rest ih =>
    intro s
    cases e with
    | none => simpa [validTemps, List.filterMap_cons, updateSensor] using ih s
    | some d =>
      by_cases hd : d.temperature = -1
      · simpa [validTemps, List.filterMap_cons, updateSensor, hd, lastOr]
          using ih (updateSensor s (some d))
      · simpa [validTemps, List.filterMap_cons, updateSensor, hd, lastOr]
          using ih (updateSensor s (some d))

theorem foldl_updateSensor_hum (evs : List (Option SensorData)) :
    ∀ s : TramaState,
      (evs.foldl updateSensor s).lastHumidity = lastOr s.lastHumidity (validHums evs) := by
  induction evs with
  | nil => intro s; rfl
  | cons e rest ih =>
    intro s
    cases e with
    | none => simpa [validHums, List.filterMap_cons, updateSensor] using ih s
    | some d =>
      by_cases hd : d.humidity = -1
      · simpa [validHums, List.filterMap_cons, updateSensor, hd, lastOr]
          using ih (updateSensor s (some d))
      · simpa [validHums, List.filterMap_cons, updateSensor, hd, lastOr]
          using ih (updateSensor s (some d))

theorem mem_validTemps_ne (evs : List (Option SensorData)) :
    ∀ y ∈ validTemps evs, y ≠ -1 := by
  induction evs with
  | nil => simp [validTemps]
  | cons e rest ih =>
    cases e with
    | none => simpa [validTemps, List.filterMap_cons] using ih
    | some d =>
      by_cases hd : d.temperature = -1
      · simpa [validTemps, List.filterMap_cons, hd] using ih
      · intro y hy
        rcases (by simpa [validTemps, List.filterMap_cons, hd] using hy :
            y = d.temperature ∨ y ∈ validTemps rest) with h | h
        · rw [h]; exact hd
        · exact ih y h

theorem mem_validHums_ne (evs : List (Option SensorData)) :
    ∀ y ∈ validHums evs, y ≠ -1 := by
  induction evs with
  | nil => simp [validHums]
  | cons e rest ih =>
    cases e with
    | none => simpa [validHums, List.filterMap_cons] using ih
    | some d =>
      by_cases hd : d.humidity = -1
      · simpa [validHums, List.filterMap_cons, hd] using ih
      · intro y hy
        rcases (by simpa [validHums, List.filterMap_cons, hd] using hy :
            y = d.humidity ∨ y ∈ validHums rest) with h | h
        · rw [h]; exact hd
        · exact ih y h

theorem lastOr_ne_neg_one (l : List ℚ) :
    ∀ x, x ≠ -1 → (∀ y ∈ l, y ≠ -1) → lastOr x l ≠ -1 := by
  induction l with
  | nil => intro x hx _; exact hx
  | cons y ys ih =>
    intro x _ hl
    exact ih y (hl y (List.mem_cons_self y ys)) fun z hz => hl z (List.mem_cons_of_mem y hz)

theorem runGives_of_true : ∀ k, runGives true k = true := by
  intro k
  induction k with
  | zero => rfl
  | succ k ih => simpa [runGives, xSemaphoreGiveBinary] using ih

theorem tareaAlarmaTakes_false : ∀ m, tareaAlarmaTakes false m = 0 := by
  intro m
  induction m with
  | zero => rfl
  | succ m ih => simpa [tareaAlarmaTakes, xSemaphoreTakeBinary] using ih

theorem runButtonEvents_all_low (evs : List (PinLevel × PinLevel)) :
    ∀ c : Int, (∀ e ∈ evs, e.1 = PinLevel.low ∧ e.2 = PinLevel.low) →
      runButtonEvents c evs = c + evs.length := by
  induction evs with
  | nil => intro c _; simp [runButtonEvents]
  | cons e rest ih =>
    intro c hq
    obtain ⟨p1, p2⟩ := e
    have h12 := hq (p1, p2) (List.mem_cons_self _ rest)
    have hstep : buttonISRstep c p1 p2 = c + 1 := by
      simp only [buttonISRstep]
      rw [if_pos h12]
    have hrest := ih (buttonISRstep c p1 p2) fun e he => hq e (List.mem_cons_of_mem _ he)
    have hrun : runButtonEvents c ((p1, p2) :: rest)
        = runButtonEvents (buttonISRstep c p1 p2) rest := rfl
    rw [hrun, hrest, hstep]
    simp only [List.length_cons]
    push_cast
    ring

/-- C1: For every SensorSample received by `tareaMostrar`, the alarm
predicate is evaluated unconditionally after the receive and `ledSemaphore`
is given exactly when (temperature > 24 AND humidity > 70) OR
(light > umbral); with both temperature and humidity absent (-1) the alarm
reduces to the light clause, and with light absent (-1) it reduces to the
temperature/humidity clause (for any threshold ≥ -1, covering both source
variants 500 and 5000). -/
theorem alarm_predicate_iff (umbral : Int) (d : SensorData) (hu : -1 ≤ umbral) :
    tareaMostrarStep umbral (some d) = alarmCondition umbral d
    ∧ (alarmCondition umbral d = true
        ↔ ((24 : ℚ) < d.temperature ∧ (70 : ℚ) < d.humidity) ∨ umbral < d.light)
    ∧ (d.temperature = -1 ∧ d.humidity = -1 →
        (alarmCondition umbral d = true ↔ umbral < d.light))
    ∧ (d.light = -1 →
        (alarmCondition umbral d = true
          ↔ (24 : ℚ) < d.temperature ∧ (70 : ℚ) < d.humidity)) := by
  refine ⟨rfl, ?_, ?_, ?_⟩
  · simp [alarmCondition]
  · rintro ⟨ht, hh⟩
    simp only [alarmCondition, ht, hh, Bool.or_eq_true, Bool.and_eq_true, decide_eq_true_eq]
    norm_num
  · intro hl
    have hn : ¬ umbral < (-1 : Int) := by omega
    simp [alarmCondition, hl, hn]

theorem alarm_predicate_iff_witness :
    alarmCondition 500 ⟨-1, -1, 600⟩ = true ↔ (500 : Int) < 600 :=
  (alarm_predicate_iff 500 ⟨-1, -1, 600⟩ (by decide)).2.2.1 (by decide)

/-- C2: Every light-only message (temperature and humidity absent, -1)
whose light value exceeds the configured threshold gives `ledSemaphore`;
in particular with the threshold 500 of the `main.cpp` variant, light = 600
gives it and light = 400 does not give it from that message alone. -/
theorem light_threshold_scenario (umbral lv : Int) (hl : umbral < lv) :
    tareaMostrarStep umbral (some ⟨-1, -1, lv⟩) = true
    ∧ tareaMostrarStep umbralLuzMain (some ⟨-1, -1, 600⟩) = true
    ∧ tareaMostrarStep umbralLuzMain (some ⟨-1, -1, 400⟩) = false := by
  refine ⟨?_, by decide, by decide⟩
  simp [tareaMostrarStep, alarmCondition, hl]

theorem light_threshold_scenario_witness :
    tareaMostrarStep 500 (some ⟨-1, -1, 600⟩) = true :=
  (light_threshold_scenario 500 600 (by decide)).1

/-- C3: When `tareaCrearTrama` has retained temperature 20.0 and humidity
30.0 from an earlier sample and then, in the current cycle, receives the
light-only sample with light = 123 followed by the RTC sample
01/01/2024 12:00:00, the frame it submits to `tramaQueue` is exactly
"01/01/2024 12:00:00, Temp: 20.00 C, Hum: 30.00%, Luz: 123", whatever the
initial content of the local `sensorData` variable was. -/
theorem trama_scenario_format (junk : SensorData) :
    (tareaCrearTramaStep
        (tareaCrearTramaStep (initTramaState junk) (some ⟨20, 30, -1⟩) none).1
        (some ⟨-1, -1, 123⟩) (some ⟨12, 0, 0, 1, 1, 2024⟩)).2
      = some "01/01/2024 12:00:00, Temp: 20.00 C, Hum: 30.00%, Luz: 123" := by
  have h1 : (tareaCrearTramaStep (initTramaState junk) (some ⟨20, 30, -1⟩) none).1
      = ⟨20, 30, ⟨20, 30, -1⟩⟩ := by
    simp [tareaCrearTramaStep, updateSensor, initTramaState]
    norm_num
  rw [h1]
  decide

/-- C4: The retained temperature and humidity of `tareaCrearTrama` are, for
every sequence of sensor-receive outcomes, exactly the most recently
received non-sentinel value of that field (or the initial -1 when no such
value ever arrived); in particular once a valid value of a field arrived
the retained value can never again be the -1 placeholder. -/
theorem retained_last_valid (junk : SensorData) (evs : List (Option SensorData)) :
    (evs.foldl updateSensor (initTramaState junk)).lastTemperature
        = lastOr (-1) (validTemps evs)
    ∧ (evs.foldl updateSensor (initTramaState junk)).lastHumidity
        = lastOr (-1) (validHums evs)
    ∧ (validTemps evs ≠ [] →
        (evs.foldl updateSensor (initTramaState junk)).lastTemperature ≠ -1)
    ∧ (validHums evs ≠ [] →
        (evs.foldl updateSensor (initTramaState junk)).lastHumidity ≠ -1) := by
  have ht := foldl_updateSensor_temp evs (initTramaState junk)
  have hh := foldl_updateSensor_hum evs (initTramaState junk)
  refine ⟨ht, hh, ?_, ?_⟩
  · intro hne
    rw [ht]
    cases hl : validTemps evs with
    | nil => exact absurd hl hne
    | cons x xs =>
      have hmem := mem_validTemps_ne evs
      rw [hl] at hmem
      exact lastOr_ne_neg_one xs x (hmem x (List.mem_cons_self x xs))
        fun z hz => hmem z (List.mem_cons_of_mem x hz)
  · intro hne
    rw [hh]
    cases hl : validHums evs with
    | nil => exact absurd hl hne
    | cons x xs =>
      have hmem := mem_validHums_ne evs
      rw [hl] at hmem
      exact lastOr_ne_neg_one xs x (hmem x (List.mem_cons_self x xs))
        fun z hz => hmem z (List.mem_cons_of_mem x hz)

theorem retained_last_valid_witness :
    ([some (⟨20, 30, -1⟩ : SensorData)].foldl updateSensor
        (initTramaState ⟨0, 0, 0⟩)).lastTemperature ≠ -1 :=
  (retained_last_valid ⟨0, 0, 0⟩ [some ⟨20, 30, -1⟩]).2.2.1 (by decide)

/-- C5 counterexample: the claim "every producer message has exactly one
channel populated" fails on the code. `tareaDHT` only filters NaN, so a
non-NaN driver reading equal to the sentinel (temperature -1.0, a value a
sub-zero-capable driver can return) is submitted as is; the resulting
message ⟨-1, 30, -1⟩ has humidity present but temperature absent, hence no
channel fully populated. -/
theorem producer_channel_counterexample :
    tareaDHTcycle (some (-1)) (some 30) = (some ⟨-1, 30, -1⟩, false)
    ∧ ¬ exactlyOneChannel ⟨-1, 30, -1⟩ :=
  ⟨rfl, by decide⟩

/-- C5 amended: every `tareaLDR` message with a nonnegative analog reading
has exactly the light channel populated, and every `tareaDHT` message has
light = -1 and, provided neither non-NaN reading equals the sentinel -1,
both temperature and humidity present; no message ever has all three
fields present. -/
theorem producer_channel_amended (t h : ℚ) (lv : Int)
    (ht : t ≠ -1) (hh : h ≠ -1) (hl : 0 ≤ lv) :
    tareaDHTcycle (some t) (some h) = (some ⟨t, h, -1⟩, false)
    ∧ exactlyOneChannel ⟨t, h, -1⟩
    ∧ exactlyOneChannel (tareaLDRcycle lv)
    ∧ ((⟨t, h, -1⟩ : SensorData).light = -1 ∧ (tareaLDRcycle lv).temperature = -1) := by
  refine ⟨rfl, Or.inl ⟨ht, hh, rfl⟩, Or.inr ⟨rfl, rfl, ?_⟩, rfl, rfl⟩
  intro hlv
  have hlv2 : lv = -1 := hlv
  omega

theorem producer_channel_amended_witness :
    exactlyOneChannel (tareaLDRcycle 100) :=
  (producer_channel_amended 21 30 100 (by decide) (by decide) (by decide)).2.2.1

/-- C6: In every `tareaDHT` cycle, a NaN temperature or humidity reading
logs the error line and sends nothing, and a valid reading sends exactly
one SensorData with light marked absent (-1) and logs no error. -/
theorem dht_error_handling (temp hum : Option ℚ) :
    (temp = none ∨ hum = none → tareaDHTcycle temp hum = (none, true))
    ∧ (∀ t h, temp = some t → hum = some h →
        tareaDHTcycle temp hum = (some ⟨t, h, -1⟩, false)
          ∧ (⟨t, h, -1⟩ : SensorData).light = -1) := by
  constructor
  · rintro (h | h) <;> rw [h] <;> cases temp <;> cases hum <;> rfl
  · intro t h ht hh
    rw [ht, hh]
    exact ⟨rfl, rfl⟩

theorem dht_error_handling_witness :
    tareaDHTcycle none (some 30) = (none, true)
    ∧ tareaDHTcycle (some 21) (some 30) = (some ⟨21, 30, -1⟩, false) :=
  ⟨(dht_error_handling none (some 30)).1 (Or.inl rfl),
   ((dht_error_handling (some 21) (some 30)).2 21 30 rfl rfl).1⟩

/-- C7: `buttonISR` increments `contador` by exactly 1 per qualifying event
(both pins reading LOW); after N qualifying events with no others in
between the counter equals its prior value plus N; a non-qualifying event
leaves it unchanged and no invocation ever decrements it. -/
theorem button_press_count (c : Int) (evs : List (PinLevel × PinLevel))
    (hq : ∀ e ∈ evs, e.1 = PinLevel.low ∧ e.2 = PinLevel.low) :
    runButtonEvents c evs = c + evs.length
    ∧ (∀ (d : Int) (p1 p2 : PinLevel), d ≤ buttonISRstep d p1 p2)
    ∧ (∀ (d : Int) (p1 p2 : PinLevel),
        ¬(p1 = PinLevel.low ∧ p2 = PinLevel.low) → buttonISRstep d p1 p2 = d) := by
  refine ⟨runButtonEvents_all_low evs c hq, ?_, ?_⟩
  · intro d p1 p2
    unfold buttonISRstep
    split
    · omega
    · omega
  · intro d p1 p2 hn
    simp only [buttonISRstep, if_neg hn]

theorem button_press_count_witness :
    runButtonEvents 5 [(PinLevel.low, PinLevel.low), (PinLevel.low, PinLevel.low)]
      = 5 + ([(PinLevel.low, PinLevel.low), (PinLevel.low, PinLevel.low)] :
          List (PinLevel × PinLevel)).length :=
  (button_press_count 5 [(PinLevel.low, PinLevel.low), (PinLevel.low, PinLevel.low)]
    (by decide)).1

/-- C8: Across one full sleep→wake→reinitialisation cycle the persisted
state changes only in `wakeCounter`, which increases by exactly 1 (the
single `wakeCounter++` in `setup`), while `contador` is unchanged. -/
theorem wake_cycle_effect (s : PersistentState) :
    (sleepWakeCycle s).wakeCounter = s.wakeCounter + 1
    ∧ (sleepWakeCycle s).contador = s.contador :=
  ⟨rfl, rfl⟩

/-- C9: `ledSemaphore` is binary and saturating: its state is one of
idle/raised, giving it while raised leaves it raised (k ≥ 1 consecutive
gives collapse into one pending raise), a take atomically returns it to
idle, and after any number of gives at most one of the subsequent takes of
`tareaAlarma` succeeds (at most one additional LED activation). -/
theorem alarm_signal_saturating (s : Bool) (k m : Nat) :
    (s = true ∨ s = false)
    ∧ xSemaphoreGiveBinary true = true
    ∧ (xSemaphoreTakeBinary s).2 = false
    ∧ (1 ≤ k → runGives s k = true)
    ∧ tareaAlarmaTakes (runGives s k) m ≤ 1 := by
  refine ⟨?_, rfl, rfl, ?_, ?_⟩
  · cases s
    · exact Or.inr rfl
    · exact Or.inl rfl
  · intro hk
    cases k with
    | zero => omega
    | succ k => simpa [runGives, xSemaphoreGiveBinary] using runGives_of_true k
  · cases m with
    | zero => simp [tareaAlarmaTakes]
    | succ m =>
      cases hg : runGives s k <;>
        simp [tareaAlarmaTakes, xSemaphoreTakeBinary, tareaAlarmaTakes_false m]

theorem alarm_signal_saturating_witness : runGives false 2 = true :=
  (alarm_signal_saturating false 2 3).2.2.2.1 (by decide)

/-- C10: If `tareaCrearTrama` receives an RTC sample before any sensor
sample since (re)initialisation, the frame it builds reads the light field
of the never-assigned local `sensorData` variable: for every possible
indeterminate initial content `junk` the Luz field of the first frame is
exactly `junk.light`, and two different stack contents yield two different
frames, so the field is indeterminate rather than a defined placeholder. -/
theorem first_trama_uninitialized_light :
    (∀ (junk : SensorData) (r : RTCData),
        (tareaCrearTramaStep (initTramaState junk) none (some r)).2
          = some (formatTrama r (-1) (-1) junk.light))
    ∧ (tareaCrearTramaStep (initTramaState ⟨0, 0, 0⟩) none
          (some ⟨12, 0, 0, 1, 1, 2024⟩)).2
        ≠ (tareaCrearTramaStep (initTramaState ⟨0, 0, 7⟩) none
            (some ⟨12, 0, 0, 1, 1, 2024⟩)).2 :=
  ⟨fun _ _ => rfl, by decide⟩

end PrimerCorte
